import Mathlib

/-!
# AndUE4Dumper: containers, object-table lookups and flag tables of `UEWrappers.hpp`

A shallow embedding of the `TArray` / `FString` views, of the name lookups of
`UE_UObjectArray`, of the typed class test and of the flag enumerations,
followed by the properties established about them.

Conventions of the embedding:
* a pointer to a buffer is `Option (List T)`: `none` is `nullptr`, `some cells`
  is a pointer to the first of the allocated cells `cells`;
* `int` / `int32_t` values are `Int`; arithmetic that can leave the 32-bit range
  (`Slack`, the increment of `Add`, the narrowing of `wcslen`) is wrapped by
  `wrap32`, and a comment says why where no wrap is needed;
* dereferencing a pointer outside its allocation (or a null pointer) is
  undefined behaviour and is the `none` outcome of the operation; so is a call
  whose result the caller cannot use: a returned reference to a temporary that
  is already destroyed, or a value-returning function left without `return`.
-/

namespace AndUEDumper

/-! ## Machine integers -/

/-- Wrap of an integer, modulo 2^32, to the range of `int32_t`. -/
def wrap32 (x : Int) : Int := (x + 2147483648) % 4294967296 - 2147483648

/-! ## Backing buffers -/

/-- The cell at offset `i` of an allocation, `none` outside of it (`p[i]` as an rvalue). -/
def readCell {T : Type} (cells : List T) (i : Int) : Option T :=
  if 0 ≤ i then cells[i.toNat]? else none

/-- The allocation after `p[i] = v`, `none` when offset `i` is outside of it. -/
def writeCell {T : Type} (cells : List T) (i : Int) (v : T) : Option (List T) :=
  if 0 ≤ i ∧ i.toNat < cells.length then some (cells.set i.toNat v) else none

/-- Outcome of an access expression: its value (`none` when a dereference left
the allocation) and the buffer offsets that were dereferenced to compute it. -/
structure Access (T : Type) where
  value : Option T
  reads : List Int
deriving DecidableEq, Repr

/-! ## The class template TArray -/

/-- The three members of a TArray: `T *Data; int32_t NumElements; int32_t MaxElements;`. -/
structure TArray (T : Type) where
  Data : Option (List T)
  NumElements : Int
  MaxElements : Int
deriving DecidableEq, Repr

namespace TArray

variable {T : Type}

/-- Default constructor `TArray() : Data(nullptr), NumElements(0), MaxElements(0) {}`. -/
def empty : TArray T := { Data := none, NumElements := 0, MaxElements := 0 }

/-- Constructor `TArray(int size) : NumElements(0), MaxElements(size), Data(calloc(1, sizeof(T) * size))`.
A successful `calloc` gives `size` zero-filled cells, which read as `T()`; a
negative `size` converts to a request `calloc` cannot satisfy and gives `nullptr`. -/
def ofSize [Inhabited T] (size : Int) : TArray T :=
  { Data := if 0 ≤ size then some (List.replicate size.toNat default) else none
    NumElements := 0
    MaxElements := size }

/-- Source: `bool IsValid() const { return Data != nullptr; }`. -/
def IsValid (a : TArray T) : Bool := a.Data.isSome

/-- Source: `bool IsValidIndex(int i) const { return i >= 0 && i < NumElements; }`. -/
def IsValidIndex (a : TArray T) (i : Int) : Bool := decide (i ≥ 0) && decide (i < a.NumElements)

/-- Source: `int Slack() const { return NumElements - MaxElements; }`. -/
def Slack (a : TArray T) : Int := wrap32 (a.NumElements - a.MaxElements)

/-- Source: `int Num() const { return NumElements; }`. -/
def Num (a : TArray T) : Int := a.NumElements

/-- Source: `int Max() const { return MaxElements; }`. -/
def Max (a : TArray T) : Int := a.MaxElements

/-- Source: `T *GetData() const { return Data; }`. -/
def GetData (a : TArray T) : Option (List T) := a.Data

/-- The expression `Data[i]` read as a value. -/
def deref (a : TArray T) (i : Int) : Option T :=
  match a.Data with
  | none => none
  | some cells => readCell cells i

/-- The conditional expression `(IsValid() && IsValidIndex(i)) ? Data[i] : T()` of both
overloads of `operator[]`: its value, with the offsets it dereferenced. Its second operand is an
lvalue of type `T` and its third a prvalue, so the expression is a prvalue: a temporary `T`
holding a copy of `Data[i]`, or `T()`. -/
def opIndexExpr [Inhabited T] (a : TArray T) (i : Int) : Access T :=
  if a.IsValid && a.IsValidIndex i then { value := a.deref i, reads := [i] }
  else { value := some default, reads := [] }

/-- Source: `T &operator[](int i) { return (IsValid() && IsValidIndex(i)) ? Data[i] : T(); }`.
The returned `T &` is bound to the temporary of the conditional expression. For a non-const `T`
that binding is ill-formed and the operator cannot be instantiated; for a const `T` the temporary
is destroyed when the function returns and the caller holds a dangling reference. In neither case
does a caller receive the value of the expression: the outcome has no value (`none`), after the
dereferences the expression made. -/
def opIndex [Inhabited T] (a : TArray T) (i : Int) : Access T :=
  { value := none, reads := (a.opIndexExpr i).reads }

/-- Source:
```
bool Add(const T &element)
{
    if (Slack() <= 0) return false;
    Data[NumElements] = element;
    NumElements++;
    return true;
}
```
The result is the returned flag with the array afterwards. -/
def Add (a : TArray T) (element : T) : Option (Bool × TArray T) :=
  if a.Slack ≤ 0 then some (false, a)
  else
    match a.Data with
    | none => none
    | some cells =>
      match writeCell cells a.NumElements element with
      | none => none
      | some cells1 =>
        some (true, { a with Data := some cells1, NumElements := wrap32 (a.NumElements + 1) })

/-- The loop of `RemoveAt`:
`for (int index = i; index < NumElements; index++) { Data[i] = Data[i + 1]; }`,
run on the buffer pointer for at most the given number of iterations (`none`
also when they do not suffice). Neither `index + 1` nor `i + 1` can leave the
range of `int`, both being at most `NumElements`. -/
def RemoveAt.loop (i NumElements : Int) : Nat → Int → Option (List T) → Option (Option (List T))
  | 0, index, data => if index < NumElements then none else some data
  | fuel + 1, index, data =>
    if index < NumElements then
      match data with
      | none => none
      | some cells =>
        match readCell cells (i + 1) with
        | none => none
        | some v =>
          match writeCell cells i v with
          | none => none
          | some cells1 => RemoveAt.loop i NumElements fuel (index + 1) (some cells1)
    else some data

/-- Source:
```
bool RemoveAt(int i)
{
    if (!IsValidIndex(i)) return false;
    NumElements--;
    for (int index = i; index < NumElements; index++) { Data[i] = Data[i + 1]; }
    return true;
}
```
The decrement cannot wrap, `NumElements` being positive after the index test. -/
def RemoveAt (a : TArray T) (i : Int) : Option (Bool × TArray T) :=
  if !a.IsValidIndex i then some (false, a)
  else
    let n := a.NumElements - 1
    match RemoveAt.loop i n (n - i).toNat i a.Data with
    | none => none
    | some data => some (true, { a with Data := data, NumElements := n })

/-- Source:
```
void Clear()
{
    NumElements = 0;
    if (!Data) memset(Data, 0, NumElements * MaxElements);
}
```
The `memset` is reached with a null pointer only; it writes no cell when its
byte count is zero and dereferences the null pointer otherwise. -/
def Clear (a : TArray T) : Option (TArray T) :=
  let a1 := { a with NumElements := 0 }
  if !a1.Data.isSome then
    if wrap32 (a1.NumElements * a1.MaxElements) = 0 then some a1 else none
  else some a1

end TArray

/-! ## The class FString -/

/-- A wide character (`wchar_t`), by its code unit. -/
abbrev wchar_t := Nat

/-- Library function `std::wcslen`: the number of cells before the first NUL, `none` when the
scan leaves the allocation without meeting one. -/
def wcslen : List wchar_t → Option Nat
  | [] => none
  | c :: rest => if c = 0 then some 0 else (wcslen rest).map (· + 1)

/-- Class `FString : public TArray<wchar_t>`; it adds no member. -/
abbrev FString := TArray wchar_t

namespace FString

/-- Source:
```
FString(const wchar_t *wstr)
{
    MaxElements = NumElements = (wstr && *wstr) ? int32_t(std::wcslen(wstr)) + 1 : 0;
    if (NumElements) Data = const_cast<wchar_t *>(wstr);
}
```
It runs after the base constructor `TArray()`, which leaves `Data` null. -/
def ofWStr (wstr : Option (List wchar_t)) : Option FString :=
  match wstr with
  | none => some { TArray.empty with NumElements := 0, MaxElements := 0 }
  | some mem =>
    match readCell mem 0 with
    | none => none
    | some c =>
      if c ≠ 0 then
        match wcslen mem with
        | none => none
        | some len =>
          let n := wrap32 (wrap32 (len : Int) + 1)
          some { Data := if n ≠ 0 then some mem else none, NumElements := n, MaxElements := n }
      else some { TArray.empty with NumElements := 0, MaxElements := 0 }

/-- Source: `std::wstring ToWString() const { return IsValid() ? Data : L""; }`.
A `std::wstring` built from a pointer holds the characters before the first NUL. -/
def ToWString (s : FString) : Option (List wchar_t) :=
  if s.IsValid then
    match s.Data with
    | none => none
    | some mem => (wcslen mem).map (fun len => mem.take len)
  else some []

end FString

/-! ## Object handles and the object table -/

/-- Class `UE_UObject`: a handle over the foreign address `uint8_t *object`, `0` being `nullptr`. -/
structure UE_UObject where
  object : Nat
deriving DecidableEq, Repr

namespace UE_UObject

/-- Default constructor `UE_UObject() : object(nullptr) {}`. -/
def null : UE_UObject := { object := 0 }

/-- Conversion `operator bool() const { return object != nullptr; }`. -/
def toBool (o : UE_UObject) : Bool := decide (o.object ≠ 0)

/-- Member template `Base Cast() const { return Base(object); }`: the same address under
another handle class, every handle class holding the one member `object`. -/
def Cast (o : UE_UObject) : UE_UObject := { object := o.object }

end UE_UObject

/-- The member functions that `UEWrappers.hpp` declares and another translation unit defines,
taken as parameters: what they return on one fixed state of the foreign process. -/
structure Foreign where
  /-- Declared as `int32_t UE_UObjectArray::GetNumElements() const`. -/
  GetNumElements : Int
  /-- Declared as `uint8_t *UE_UObjectArray::GetObjectPtr(int32_t id) const`. -/
  GetObjectPtr : Int → Nat
  /-- Declared as `std::string UE_UObject::GetName() const`. -/
  GetName : UE_UObject → String
  /-- Declared as `std::string UE_UObject::GetFullName() const`. -/
  GetFullName : UE_UObject → String
  /-- Declared as `UE_UObject UE_UObject::GetOuter() const`. -/
  GetOuter : UE_UObject → UE_UObject

namespace UE_UObjectArray

/-- The loop of `FindObject` from counter `i` on, for at most the given number of iterations:
```
for (int32_t i = 0; i < GetNumElements(); i++)
{
    UE_UObject object = GetObjectPtr(i);
    if (object && object.GetFullName() == fullName) return object.Cast<T>();
}
return T();
```
The counter stays below `GetNumElements()`, so `i++` does not wrap. -/
def FindObject.loop (env : Foreign) (fullName : String) : Nat → Int → UE_UObject
  | 0, _ => UE_UObject.null
  | fuel + 1, i =>
    if i < env.GetNumElements then
      let object : UE_UObject := { object := env.GetObjectPtr i }
      if object.toBool && env.GetFullName object == fullName then object.Cast
      else FindObject.loop env fullName fuel (i + 1)
    else UE_UObject.null

/-- Member `T FindObject(const std::string &fullName) const`; the loop runs `GetNumElements()` times
at most. -/
def FindObject (env : Foreign) (fullName : String) : UE_UObject :=
  FindObject.loop env fullName env.GetNumElements.toNat 0

/-- The loop of `FindObjectFast` from counter `i` on, for at most the given number of iterations:
```
for (int32_t i = 0; i < GetNumElements(); i++)
{
    UE_UObject object = GetObjectPtr(i);
    if (object && object.GetName() == name) return object.Cast<T>();
}
return T();
``` -/
def FindObjectFast.loop (env : Foreign) (name : String) : Nat → Int → UE_UObject
  | 0, _ => UE_UObject.null
  | fuel + 1, i =>
    if i < env.GetNumElements then
      let object : UE_UObject := { object := env.GetObjectPtr i }
      if object.toBool && env.GetName object == name then object.Cast
      else FindObjectFast.loop env name fuel (i + 1)
    else UE_UObject.null

/-- Member `T FindObjectFast(const std::string &name) const`. -/
def FindObjectFast (env : Foreign) (name : String) : UE_UObject :=
  FindObjectFast.loop env name env.GetNumElements.toNat 0

/-- The loop of `FindObjectFastInOuter` from counter `i` on, for at most the given number of
iterations:
```
for (int32_t i = 0; i < GetNumElements(); i++)
{
    UE_UObject object = GetObjectPtr(i);
    if (object.GetName() == name && object.GetOuter().GetName() == outer) return object.Cast<T>();
}
return T();
``` -/
def FindObjectFastInOuter.loop (env : Foreign) (name outer : String) : Nat → Int → UE_UObject
  | 0, _ => UE_UObject.null
  | fuel + 1, i =>
    if i < env.GetNumElements then
      let object : UE_UObject := { object := env.GetObjectPtr i }
      if env.GetName object == name && env.GetName (env.GetOuter object) == outer then object.Cast
      else FindObjectFastInOuter.loop env name outer fuel (i + 1)
    else UE_UObject.null

/-- Member `T FindObjectFastInOuter(const std::string &name, const std::string &outer)`. -/
def FindObjectFastInOuter (env : Foreign) (name outer : String) : UE_UObject :=
  FindObjectFastInOuter.loop env name outer env.GetNumElements.toNat 0

end UE_UObjectArray

/-! ## Sample states of the foreign process -/

/-- A table of three slots: an empty slot, then the classes `Actor` and `Pawn`. -/
def sampleTable : Foreign where
  GetNumElements := 3
  GetObjectPtr := fun i => if i = 1 then 4096 else if i = 2 then 8192 else 0
  GetName := fun o => if o.object = 4096 then "Actor" else if o.object = 8192 then "Pawn" else ""
  GetFullName := fun o =>
    if o.object = 4096 then "Class Engine.Actor"
    else if o.object = 8192 then "Class Engine.Pawn" else ""
  GetOuter := fun _ => UE_UObject.null

/-- A table of two slots: an empty slot, then an object at address 4096 that has no outer and
whose name resolves to the empty text; on the null handle the accessors give the empty text and
the null handle, the defaults of an accessor that is handed an invalid handle. -/
def unnamedTable : Foreign where
  GetNumElements := 2
  GetObjectPtr := fun i => if i = 1 then 4096 else 0
  GetName := fun _ => ""
  GetFullName := fun _ => ""
  GetOuter := fun _ => UE_UObject.null

/-! ## The const subscript, assignment from a pointer, the typed class test -/

/-- Source: `const T &operator[](int i) const { (IsValid() && IsValidIndex(i)) ? Data[i] : T(); }`.
The body evaluates the conditional expression and discards it; there is no `return`, so control
flows off the end of a function that returns a value, which is undefined behaviour: no value is
returned (`none`), after the dereference the expression made. -/
def TArray.opIndexConst {T : Type} [Inhabited T] (a : TArray T) (i : Int) : Access T :=
  let discarded : Access T :=
    if a.IsValid && a.IsValidIndex i then { value := a.deref i, reads := [i] }
    else { value := some default, reads := [] }
  { value := none, reads := discarded.reads }

/-- Source: `FString operator=(const wchar_t *&&other) { return FString(other); }`.
The result is the returned view with the assigned-to view afterwards. -/
def FString.opAssign (self : FString) (other : Option (List wchar_t)) : Option (FString × FString) :=
  match FString.ofWStr other with
  | none => none
  | some ret => some (ret, self)

/-- Source:
```
template <typename T>
bool UE_UObject::IsA() const
{
    auto cmp = T::StaticClass();
    if (!cmp) return false;
    return IsA(cmp);
}
```
The static member `T::StaticClass()` and the member `bool IsA(UE_UClass cmp) const` are declared
in the header and defined elsewhere; they are the parameters `StaticClass` and `IsA_cmp`. -/
def UE_UObject.IsA (StaticClass : UE_UObject) (IsA_cmp : UE_UObject → UE_UObject → Bool)
    (o : UE_UObject) : Bool :=
  let cmp := StaticClass
  if !cmp.toBool then false
  else IsA_cmp o cmp

/-! ## Flag enumerations -/

/-- The largest value of `int32_t`. -/
def INT32_MAX : Nat := 2147483647

/-- The largest value of `uint32_t`. -/
def UINT32_MAX : Nat := 4294967295

/-- The largest value of `uint64_t`. -/
def UINT64_MAX : Nat := 18446744073709551615


/-! ### EInternalObjectFlags, an enumeration over int32_t -/

/-- Enumerator `None = 0`. -/
def EInternalObjectFlags.None : Nat := 0

/-- Enumerator `ReachableInCluster = 1 << 23`. -/
def EInternalObjectFlags.ReachableInCluster : Nat := 1 <<< 23

/-- Enumerator `ClusterRoot = 1 << 24`. -/
def EInternalObjectFlags.ClusterRoot : Nat := 1 <<< 24

/-- Enumerator `Native = 1 << 25`. -/
def EInternalObjectFlags.Native : Nat := 1 <<< 25

/-- Enumerator `Async = 1 << 26`. -/
def EInternalObjectFlags.Async : Nat := 1 <<< 26

/-- Enumerator `AsyncLoading = 1 << 27`. -/
def EInternalObjectFlags.AsyncLoading : Nat := 1 <<< 27

/-- Enumerator `Unreachable = 1 << 28`. -/
def EInternalObjectFlags.Unreachable : Nat := 1 <<< 28

/-- Enumerator `PendingKill = 1 << 29`. -/
def EInternalObjectFlags.PendingKill : Nat := 1 <<< 29

/-- Enumerator `RootSet = 1 << 30`. -/
def EInternalObjectFlags.RootSet : Nat := 1 <<< 30

/-- Enumerator `GarbageCollectionKeepFlags = Native | Async | AsyncLoading`. -/
def EInternalObjectFlags.GarbageCollectionKeepFlags : Nat := EInternalObjectFlags.Native ||| EInternalObjectFlags.Async ||| EInternalObjectFlags.AsyncLoading

/-- Enumerator `AllFlags = ReachableInCluster | ClusterRoot | Native | Async | AsyncLoading | Unreachable | PendingKill | RootSet`. -/
def EInternalObjectFlags.AllFlags : Nat := EInternalObjectFlags.ReachableInCluster ||| EInternalObjectFlags.ClusterRoot ||| EInternalObjectFlags.Native ||| EInternalObjectFlags.Async ||| EInternalObjectFlags.AsyncLoading ||| EInternalObjectFlags.Unreachable ||| EInternalObjectFlags.PendingKill ||| EInternalObjectFlags.RootSet

/-- The named flags of `EInternalObjectFlags` in source order, without the zero value and the composite
masks (None, GarbageCollectionKeepFlags, AllFlags). -/
def EInternalObjectFlags.flags : List Nat :=
  [EInternalObjectFlags.ReachableInCluster, EInternalObjectFlags.ClusterRoot, EInternalObjectFlags.Native,
   EInternalObjectFlags.Async, EInternalObjectFlags.AsyncLoading, EInternalObjectFlags.Unreachable,
   EInternalObjectFlags.PendingKill, EInternalObjectFlags.RootSet]

/-- The largest value of the underlying type `int32_t` of `EInternalObjectFlags`. -/
def EInternalObjectFlags.maxValue : Nat := INT32_MAX


/-! ### EObjectFlags, an enumeration over uint32_t -/

/-- Enumerator `NoFlags = 0x00000000`. -/
def EObjectFlags.NoFlags : Nat := 0x00000000

/-- Enumerator `Public = 0x00000001`. -/
def EObjectFlags.Public : Nat := 0x00000001

/-- Enumerator `Standalone = 0x00000002`. -/
def EObjectFlags.Standalone : Nat := 0x00000002

/-- Enumerator `MarkAsNative = 0x00000004`. -/
def EObjectFlags.MarkAsNative : Nat := 0x00000004

/-- Enumerator `Transactional = 0x00000008`. -/
def EObjectFlags.Transactional : Nat := 0x00000008

/-- Enumerator `ClassDefaultObject = 0x00000010`. -/
def EObjectFlags.ClassDefaultObject : Nat := 0x00000010

/-- Enumerator `ArchetypeObject = 0x00000020`. -/
def EObjectFlags.ArchetypeObject : Nat := 0x00000020

/-- Enumerator `Transient = 0x00000040`. -/
def EObjectFlags.Transient : Nat := 0x00000040

/-- Enumerator `MarkAsRootSet = 0x00000080`. -/
def EObjectFlags.MarkAsRootSet : Nat := 0x00000080

/-- Enumerator `TagGarbageTemp = 0x00000100`. -/
def EObjectFlags.TagGarbageTemp : Nat := 0x00000100

/-- Enumerator `NeedInitialization = 0x00000200`. -/
def EObjectFlags.NeedInitialization : Nat := 0x00000200

/-- Enumerator `NeedLoad = 0x00000400`. -/
def EObjectFlags.NeedLoad : Nat := 0x00000400

/-- Enumerator `KeepForCooker = 0x00000800`. -/
def EObjectFlags.KeepForCooker : Nat := 0x00000800

/-- Enumerator `NeedPostLoad = 0x00001000`. -/
def EObjectFlags.NeedPostLoad : Nat := 0x00001000

/-- Enumerator `NeedPostLoadSubobjects = 0x00002000`. -/
def EObjectFlags.NeedPostLoadSubobjects : Nat := 0x00002000

/-- Enumerator `NewerVersionExists = 0x00004000`. -/
def EObjectFlags.NewerVersionExists : Nat := 0x00004000

/-- Enumerator `BeginDestroyed = 0x00008000`. -/
def EObjectFlags.BeginDestroyed : Nat := 0x00008000

/-- Enumerator `FinishDestroyed = 0x00010000`. -/
def EObjectFlags.FinishDestroyed : Nat := 0x00010000

/-- Enumerator `BeingRegenerated = 0x00020000`. -/
def EObjectFlags.BeingRegenerated : Nat := 0x00020000

/-- Enumerator `DefaultSubObject = 0x00040000`. -/
def EObjectFlags.DefaultSubObject : Nat := 0x00040000

/-- Enumerator `WasLoaded = 0x00080000`. -/
def EObjectFlags.WasLoaded : Nat := 0x00080000

/-- Enumerator `TextExportTransient = 0x00100000`. -/
def EObjectFlags.TextExportTransient : Nat := 0x00100000

/-- Enumerator `LoadCompleted = 0x00200000`. -/
def EObjectFlags.LoadCompleted : Nat := 0x00200000

/-- Enumerator `InheritableComponentTemplate = 0x00400000`. -/
def EObjectFlags.InheritableComponentTemplate : Nat := 0x00400000

/-- Enumerator `DuplicateTransient = 0x00800000`. -/
def EObjectFlags.DuplicateTransient : Nat := 0x00800000

/-- Enumerator `StrongRefOnFrame = 0x01000000`. -/
def EObjectFlags.StrongRefOnFrame : Nat := 0x01000000

/-- Enumerator `NonPIEDuplicateTransient = 0x02000000`. -/
def EObjectFlags.NonPIEDuplicateTransient : Nat := 0x02000000

/-- Enumerator `Dynamic = 0x04000000`. -/
def EObjectFlags.Dynamic : Nat := 0x04000000

/-- Enumerator `WillBeLoaded = 0x08000000`. -/
def EObjectFlags.WillBeLoaded : Nat := 0x08000000

/-- The named flags of `EObjectFlags` in source order, without the zero value and the composite
masks (NoFlags). -/
def EObjectFlags.flags : List Nat :=
  [EObjectFlags.Public, EObjectFlags.Standalone, EObjectFlags.MarkAsNative,
   EObjectFlags.Transactional, EObjectFlags.ClassDefaultObject, EObjectFlags.ArchetypeObject,
   EObjectFlags.Transient, EObjectFlags.MarkAsRootSet, EObjectFlags.TagGarbageTemp,
   EObjectFlags.NeedInitialization, EObjectFlags.NeedLoad, EObjectFlags.KeepForCooker,
   EObjectFlags.NeedPostLoad, EObjectFlags.NeedPostLoadSubobjects, EObjectFlags.NewerVersionExists,
   EObjectFlags.BeginDestroyed, EObjectFlags.FinishDestroyed, EObjectFlags.BeingRegenerated,
   EObjectFlags.DefaultSubObject, EObjectFlags.WasLoaded, EObjectFlags.TextExportTransient,
   EObjectFlags.LoadCompleted, EObjectFlags.InheritableComponentTemplate, EObjectFlags.DuplicateTransient,
   EObjectFlags.StrongRefOnFrame, EObjectFlags.NonPIEDuplicateTransient, EObjectFlags.Dynamic,
   EObjectFlags.WillBeLoaded]

/-- The largest value of the underlying type `uint32_t` of `EObjectFlags`. -/
def EObjectFlags.maxValue : Nat := UINT32_MAX


/-! ### EPropertyFlags, an enumeration over uint64_t -/

/-- Enumerator `CPF_None = 0`. -/
def EPropertyFlags.CPF_None : Nat := 0

/-- Enumerator `CPF_Edit = 0x0000000000000001`. -/
def EPropertyFlags.CPF_Edit : Nat := 0x0000000000000001

/-- Enumerator `CPF_ConstParm = 0x0000000000000002`. -/
def EPropertyFlags.CPF_ConstParm : Nat := 0x0000000000000002

/-- Enumerator `CPF_BlueprintVisible = 0x0000000000000004`. -/
def EPropertyFlags.CPF_BlueprintVisible : Nat := 0x0000000000000004

/-- Enumerator `CPF_ExportObject = 0x0000000000000008`. -/
def EPropertyFlags.CPF_ExportObject : Nat := 0x0000000000000008

/-- Enumerator `CPF_BlueprintReadOnly = 0x0000000000000010`. -/
def EPropertyFlags.CPF_BlueprintReadOnly : Nat := 0x0000000000000010

/-- Enumerator `CPF_Net = 0x0000000000000020`. -/
def EPropertyFlags.CPF_Net : Nat := 0x0000000000000020

/-- Enumerator `CPF_EditFixedSize = 0x0000000000000040`. -/
def EPropertyFlags.CPF_EditFixedSize : Nat := 0x0000000000000040

/-- Enumerator `CPF_Parm = 0x0000000000000080`. -/
def EPropertyFlags.CPF_Parm : Nat := 0x0000000000000080

/-- Enumerator `CPF_OutParm = 0x0000000000000100`. -/
def EPropertyFlags.CPF_OutParm : Nat := 0x0000000000000100

/-- Enumerator `CPF_ZeroConstructor = 0x0000000000000200`. -/
def EPropertyFlags.CPF_ZeroConstructor : Nat := 0x0000000000000200

/-- Enumerator `CPF_ReturnParm = 0x0000000000000400`. -/
def EPropertyFlags.CPF_ReturnParm : Nat := 0x0000000000000400

/-- Enumerator `CPF_DisableEditOnTemplate = 0x0000000000000800`. -/
def EPropertyFlags.CPF_DisableEditOnTemplate : Nat := 0x0000000000000800

/-- Enumerator `CPF_NonNullable = 0x0000000000001000`. -/
def EPropertyFlags.CPF_NonNullable : Nat := 0x0000000000001000

/-- Enumerator `CPF_Transient = 0x0000000000002000`. -/
def EPropertyFlags.CPF_Transient : Nat := 0x0000000000002000

/-- Enumerator `CPF_Config = 0x0000000000004000`. -/
def EPropertyFlags.CPF_Config : Nat := 0x0000000000004000

/-- Enumerator `CPF_RequiredParm = 0x0000000000008000`. -/
def EPropertyFlags.CPF_RequiredParm : Nat := 0x0000000000008000

/-- Enumerator `CPF_DisableEditOnInstance = 0x0000000000010000`. -/
def EPropertyFlags.CPF_DisableEditOnInstance : Nat := 0x0000000000010000

/-- Enumerator `CPF_EditConst = 0x0000000000020000`. -/
def EPropertyFlags.CPF_EditConst : Nat := 0x0000000000020000

/-- Enumerator `CPF_GlobalConfig = 0x0000000000040000`. -/
def EPropertyFlags.CPF_GlobalConfig : Nat := 0x0000000000040000

/-- Enumerator `CPF_InstancedReference = 0x0000000000080000`. -/
def EPropertyFlags.CPF_InstancedReference : Nat := 0x0000000000080000

/-- Enumerator `CPF_DuplicateTransient = 0x0000000000200000`. -/
def EPropertyFlags.CPF_DuplicateTransient : Nat := 0x0000000000200000

/-- Enumerator `CPF_SaveGame = 0x0000000001000000`. -/
def EPropertyFlags.CPF_SaveGame : Nat := 0x0000000001000000

/-- Enumerator `CPF_NoClear = 0x0000000002000000`. -/
def EPropertyFlags.CPF_NoClear : Nat := 0x0000000002000000

/-- Enumerator `CPF_ReferenceParm = 0x0000000008000000`. -/
def EPropertyFlags.CPF_ReferenceParm : Nat := 0x0000000008000000

/-- Enumerator `CPF_BlueprintAssignable = 0x0000000010000000`. -/
def EPropertyFlags.CPF_BlueprintAssignable : Nat := 0x0000000010000000

/-- Enumerator `CPF_Deprecated = 0x0000000020000000`. -/
def EPropertyFlags.CPF_Deprecated : Nat := 0x0000000020000000

/-- Enumerator `CPF_IsPlainOldData = 0x0000000040000000`. -/
def EPropertyFlags.CPF_IsPlainOldData : Nat := 0x0000000040000000

/-- Enumerator `CPF_RepSkip = 0x0000000080000000`. -/
def EPropertyFlags.CPF_RepSkip : Nat := 0x0000000080000000

/-- Enumerator `CPF_RepNotify = 0x0000000100000000`. -/
def EPropertyFlags.CPF_RepNotify : Nat := 0x0000000100000000

/-- Enumerator `CPF_Interp = 0x0000000200000000`. -/
def EPropertyFlags.CPF_Interp : Nat := 0x0000000200000000

/-- Enumerator `CPF_NonTransactional = 0x0000000400000000`. -/
def EPropertyFlags.CPF_NonTransactional : Nat := 0x0000000400000000

/-- Enumerator `CPF_EditorOnly = 0x0000000800000000`. -/
def EPropertyFlags.CPF_EditorOnly : Nat := 0x0000000800000000

/-- Enumerator `CPF_NoDestructor = 0x0000001000000000`. -/
def EPropertyFlags.CPF_NoDestructor : Nat := 0x0000001000000000

/-- Enumerator `CPF_AutoWeak = 0x0000004000000000`. -/
def EPropertyFlags.CPF_AutoWeak : Nat := 0x0000004000000000

/-- Enumerator `CPF_ContainsInstancedReference = 0x0000008000000000`. -/
def EPropertyFlags.CPF_ContainsInstancedReference : Nat := 0x0000008000000000

/-- Enumerator `CPF_AssetRegistrySearchable = 0x0000010000000000`. -/
def EPropertyFlags.CPF_AssetRegistrySearchable : Nat := 0x0000010000000000

/-- Enumerator `CPF_SimpleDisplay = 0x0000020000000000`. -/
def EPropertyFlags.CPF_SimpleDisplay : Nat := 0x0000020000000000

/-- Enumerator `CPF_AdvancedDisplay = 0x0000040000000000`. -/
def EPropertyFlags.CPF_AdvancedDisplay : Nat := 0x0000040000000000

/-- Enumerator `CPF_Protected = 0x0000080000000000`. -/
def EPropertyFlags.CPF_Protected : Nat := 0x0000080000000000

/-- Enumerator `CPF_BlueprintCallable = 0x0000100000000000`. -/
def EPropertyFlags.CPF_BlueprintCallable : Nat := 0x0000100000000000

/-- Enumerator `CPF_BlueprintAuthorityOnly = 0x0000200000000000`. -/
def EPropertyFlags.CPF_BlueprintAuthorityOnly : Nat := 0x0000200000000000

/-- Enumerator `CPF_TextExportTransient = 0x0000400000000000`. -/
def EPropertyFlags.CPF_TextExportTransient : Nat := 0x0000400000000000

/-- Enumerator `CPF_NonPIEDuplicateTransient = 0x0000800000000000`. -/
def EPropertyFlags.CPF_NonPIEDuplicateTransient : Nat := 0x0000800000000000

/-- Enumerator `CPF_ExposeOnSpawn = 0x0001000000000000`. -/
def EPropertyFlags.CPF_ExposeOnSpawn : Nat := 0x0001000000000000

/-- Enumerator `CPF_PersistentInstance = 0x0002000000000000`. -/
def EPropertyFlags.CPF_PersistentInstance : Nat := 0x0002000000000000

/-- Enumerator `CPF_UObjectWrapper = 0x0004000000000000`. -/
def EPropertyFlags.CPF_UObjectWrapper : Nat := 0x0004000000000000

/-- Enumerator `CPF_HasGetValueTypeHash = 0x0008000000000000`. -/
def EPropertyFlags.CPF_HasGetValueTypeHash : Nat := 0x0008000000000000

/-- Enumerator `CPF_NativeAccessSpecifierPublic = 0x0010000000000000`. -/
def EPropertyFlags.CPF_NativeAccessSpecifierPublic : Nat := 0x0010000000000000

/-- Enumerator `CPF_NativeAccessSpecifierProtected = 0x0020000000000000`. -/
def EPropertyFlags.CPF_NativeAccessSpecifierProtected : Nat := 0x0020000000000000

/-- Enumerator `CPF_NativeAccessSpecifierPrivate = 0x0040000000000000`. -/
def EPropertyFlags.CPF_NativeAccessSpecifierPrivate : Nat := 0x0040000000000000

/-- Enumerator `CPF_SkipSerialization = 0x0080000000000000`. -/
def EPropertyFlags.CPF_SkipSerialization : Nat := 0x0080000000000000

/-- The named flags of `EPropertyFlags` in source order, without the zero value and the composite
masks (CPF_None). -/
def EPropertyFlags.flags : List Nat :=
  [EPropertyFlags.CPF_Edit, EPropertyFlags.CPF_ConstParm, EPropertyFlags.CPF_BlueprintVisible,
   EPropertyFlags.CPF_ExportObject, EPropertyFlags.CPF_BlueprintReadOnly, EPropertyFlags.CPF_Net,
   EPropertyFlags.CPF_EditFixedSize, EPropertyFlags.CPF_Parm, EPropertyFlags.CPF_OutParm,
   EPropertyFlags.CPF_ZeroConstructor, EPropertyFlags.CPF_ReturnParm, EPropertyFlags.CPF_DisableEditOnTemplate,
   EPropertyFlags.CPF_NonNullable, EPropertyFlags.CPF_Transient, EPropertyFlags.CPF_Config,
   EPropertyFlags.CPF_RequiredParm, EPropertyFlags.CPF_DisableEditOnInstance, EPropertyFlags.CPF_EditConst,
   EPropertyFlags.CPF_GlobalConfig, EPropertyFlags.CPF_InstancedReference, EPropertyFlags.CPF_DuplicateTransient,
   EPropertyFlags.CPF_SaveGame, EPropertyFlags.CPF_NoClear, EPropertyFlags.CPF_ReferenceParm,
   EPropertyFlags.CPF_BlueprintAssignable, EPropertyFlags.CPF_Deprecated, EPropertyFlags.CPF_IsPlainOldData,
   EPropertyFlags.CPF_RepSkip, EPropertyFlags.CPF_RepNotify, EPropertyFlags.CPF_Interp,
   EPropertyFlags.CPF_NonTransactional, EPropertyFlags.CPF_EditorOnly, EPropertyFlags.CPF_NoDestructor,
   EPropertyFlags.CPF_AutoWeak, EPropertyFlags.CPF_ContainsInstancedReference, EPropertyFlags.CPF_AssetRegistrySearchable,
   EPropertyFlags.CPF_SimpleDisplay, EPropertyFlags.CPF_AdvancedDisplay, EPropertyFlags.CPF_Protected,
   EPropertyFlags.CPF_BlueprintCallable, EPropertyFlags.CPF_BlueprintAuthorityOnly, EPropertyFlags.CPF_TextExportTransient,
   EPropertyFlags.CPF_NonPIEDuplicateTransient, EPropertyFlags.CPF_ExposeOnSpawn, EPropertyFlags.CPF_PersistentInstance,
   EPropertyFlags.CPF_UObjectWrapper, EPropertyFlags.CPF_HasGetValueTypeHash, EPropertyFlags.CPF_NativeAccessSpecifierPublic,
   EPropertyFlags.CPF_NativeAccessSpecifierProtected, EPropertyFlags.CPF_NativeAccessSpecifierPrivate, EPropertyFlags.CPF_SkipSerialization]

/-- The largest value of the underlying type `uint64_t` of `EPropertyFlags`. -/
def EPropertyFlags.maxValue : Nat := UINT64_MAX


/-! ### EFunctionFlags, an enumeration over uint32_t -/

/-- Enumerator `FUNC_None = 0x00000000`. -/
def EFunctionFlags.FUNC_None : Nat := 0x00000000

/-- Enumerator `FUNC_Final = 0x00000001`. -/
def EFunctionFlags.FUNC_Final : Nat := 0x00000001

/-- Enumerator `FUNC_RequiredAPI = 0x00000002`. -/
def EFunctionFlags.FUNC_RequiredAPI : Nat := 0x00000002

/-- Enumerator `FUNC_BlueprintAuthorityOnly = 0x00000004`. -/
def EFunctionFlags.FUNC_BlueprintAuthorityOnly : Nat := 0x00000004

/-- Enumerator `FUNC_BlueprintCosmetic = 0x00000008`. -/
def EFunctionFlags.FUNC_BlueprintCosmetic : Nat := 0x00000008

/-- Enumerator `FUNC_Net = 0x00000040`. -/
def EFunctionFlags.FUNC_Net : Nat := 0x00000040

/-- Enumerator `FUNC_NetReliable = 0x00000080`. -/
def EFunctionFlags.FUNC_NetReliable : Nat := 0x00000080

/-- Enumerator `FUNC_NetRequest = 0x00000100`. -/
def EFunctionFlags.FUNC_NetRequest : Nat := 0x00000100

/-- Enumerator `FUNC_Exec = 0x00000200`. -/
def EFunctionFlags.FUNC_Exec : Nat := 0x00000200

/-- Enumerator `FUNC_Native = 0x00000400`. -/
def EFunctionFlags.FUNC_Native : Nat := 0x00000400

/-- Enumerator `FUNC_Event = 0x00000800`. -/
def EFunctionFlags.FUNC_Event : Nat := 0x00000800

/-- Enumerator `FUNC_NetResponse = 0x00001000`. -/
def EFunctionFlags.FUNC_NetResponse : Nat := 0x00001000

/-- Enumerator `FUNC_Static = 0x00002000`. -/
def EFunctionFlags.FUNC_Static : Nat := 0x00002000

/-- Enumerator `FUNC_NetMulticast = 0x00004000`. -/
def EFunctionFlags.FUNC_NetMulticast : Nat := 0x00004000

/-- Enumerator `FUNC_UbergraphFunction = 0x00008000`. -/
def EFunctionFlags.FUNC_UbergraphFunction : Nat := 0x00008000

/-- Enumerator `FUNC_MulticastDelegate = 0x00010000`. -/
def EFunctionFlags.FUNC_MulticastDelegate : Nat := 0x00010000

/-- Enumerator `FUNC_Public = 0x00020000`. -/
def EFunctionFlags.FUNC_Public : Nat := 0x00020000

/-- Enumerator `FUNC_Private = 0x00040000`. -/
def EFunctionFlags.FUNC_Private : Nat := 0x00040000

/-- Enumerator `FUNC_Protected = 0x00080000`. -/
def EFunctionFlags.FUNC_Protected : Nat := 0x00080000

/-- Enumerator `FUNC_Delegate = 0x00100000`. -/
def EFunctionFlags.FUNC_Delegate : Nat := 0x00100000

/-- Enumerator `FUNC_NetServer = 0x00200000`. -/
def EFunctionFlags.FUNC_NetServer : Nat := 0x00200000

/-- Enumerator `FUNC_HasOutParms = 0x00400000`. -/
def EFunctionFlags.FUNC_HasOutParms : Nat := 0x00400000

/-- Enumerator `FUNC_HasDefaults = 0x00800000`. -/
def EFunctionFlags.FUNC_HasDefaults : Nat := 0x00800000

/-- Enumerator `FUNC_NetClient = 0x01000000`. -/
def EFunctionFlags.FUNC_NetClient : Nat := 0x01000000

/-- Enumerator `FUNC_DLLImport = 0x02000000`. -/
def EFunctionFlags.FUNC_DLLImport : Nat := 0x02000000

/-- Enumerator `FUNC_BlueprintCallable = 0x04000000`. -/
def EFunctionFlags.FUNC_BlueprintCallable : Nat := 0x04000000

/-- Enumerator `FUNC_BlueprintEvent = 0x08000000`. -/
def EFunctionFlags.FUNC_BlueprintEvent : Nat := 0x08000000

/-- Enumerator `FUNC_BlueprintPure = 0x10000000`. -/
def EFunctionFlags.FUNC_BlueprintPure : Nat := 0x10000000

/-- Enumerator `FUNC_EditorOnly = 0x20000000`. -/
def EFunctionFlags.FUNC_EditorOnly : Nat := 0x20000000

/-- Enumerator `FUNC_Const = 0x40000000`. -/
def EFunctionFlags.FUNC_Const : Nat := 0x40000000

/-- Enumerator `FUNC_NetValidate = 0x80000000`. -/
def EFunctionFlags.FUNC_NetValidate : Nat := 0x80000000

/-- Enumerator `FUNC_AllFlags = 0xFFFFFFFF`. -/
def EFunctionFlags.FUNC_AllFlags : Nat := 0xFFFFFFFF

/-- The named flags of `EFunctionFlags` in source order, without the zero value and the composite
masks (FUNC_None, FUNC_AllFlags). -/
def EFunctionFlags.flags : List Nat :=
  [EFunctionFlags.FUNC_Final, EFunctionFlags.FUNC_RequiredAPI, EFunctionFlags.FUNC_BlueprintAuthorityOnly,
   EFunctionFlags.FUNC_BlueprintCosmetic, EFunctionFlags.FUNC_Net, EFunctionFlags.FUNC_NetReliable,
   EFunctionFlags.FUNC_NetRequest, EFunctionFlags.FUNC_Exec, EFunctionFlags.FUNC_Native,
   EFunctionFlags.FUNC_Event, EFunctionFlags.FUNC_NetResponse, EFunctionFlags.FUNC_Static,
   EFunctionFlags.FUNC_NetMulticast, EFunctionFlags.FUNC_UbergraphFunction, EFunctionFlags.FUNC_MulticastDelegate,
   EFunctionFlags.FUNC_Public, EFunctionFlags.FUNC_Private, EFunctionFlags.FUNC_Protected,
   EFunctionFlags.FUNC_Delegate, EFunctionFlags.FUNC_NetServer, EFunctionFlags.FUNC_HasOutParms,
   EFunctionFlags.FUNC_HasDefaults, EFunctionFlags.FUNC_NetClient, EFunctionFlags.FUNC_DLLImport,
   EFunctionFlags.FUNC_BlueprintCallable, EFunctionFlags.FUNC_BlueprintEvent, EFunctionFlags.FUNC_BlueprintPure,
   EFunctionFlags.FUNC_EditorOnly, EFunctionFlags.FUNC_Const, EFunctionFlags.FUNC_NetValidate]

/-- The largest value of the underlying type `uint32_t` of `EFunctionFlags`. -/
def EFunctionFlags.maxValue : Nat := UINT32_MAX

/-! # Properties -/

/-! ## Indexed access -/

/-- The conditional expression of `operator[]` at an index below zero or at least `Num()`: it is
`T()` and dereferences no cell of the backing buffer. -/
theorem TArray.opIndexExpr_out_of_range {T : Type} [Inhabited T] (a : TArray T) (i : Int)
    (h : i < 0 ∨ i ≥ a.Num) :
    a.opIndexExpr i = { value := some default, reads := [] } := by
  have hidx : a.IsValidIndex i = false := by
    unfold TArray.IsValidIndex
    unfold TArray.Num at h
    rcases h with h | h
    · simp [h]
    · simp [Int.not_lt.mpr h]
  simp [TArray.opIndexExpr, hidx]

/-- The conditional expression of `operator[]` with a non-null backing pointer and
`0 <= i < Num()`: it dereferences offset `i` only and is the element stored there. -/
theorem TArray.opIndexExpr_in_range {T : Type} [Inhabited T] (a : TArray T) (cells : List T)
    (i : Int) (hdata : a.Data = some cells) (hi : 0 ≤ i ∧ i < a.Num) :
    a.opIndexExpr i = { value := cells[i.toNat]?, reads := [i] } := by
  have hidx : a.IsValidIndex i = true := by
    unfold TArray.IsValidIndex
    unfold TArray.Num at hi
    simp [hi.1, hi.2]
  have hval : a.IsValid = true := by simp [TArray.IsValid, hdata]
  simp [TArray.opIndexExpr, hidx, hval, TArray.deref, hdata, readCell, hi.1]

/-- At every array and index the non-const `operator[]` hands its caller no value; it
dereferences what its conditional expression dereferences. -/
theorem TArray.opIndex_hands_no_value {T : Type} [Inhabited T] (a : TArray T) (i : Int) :
    (a.opIndex i).value = none ∧ (a.opIndex i).reads = (a.opIndexExpr i).reads :=
  ⟨rfl, rfl⟩

/-- C1 fails on the code: at index `3` of the three-element array `[10, 20, 30]` the conditional
expression of `operator[]` is `T()` and no cell is dereferenced, but the non-const overload returns
a reference bound to that temporary and the const overload returns nothing, so through neither
does the caller receive a value where the claim says `T()`. -/
theorem TArray.opIndex_out_of_range_dangling :
    ((3 : Int) < 0 ∨ (3 : Int) ≥ TArray.Num (⟨some [10, 20, 30], 3, 4⟩ : TArray Nat)) ∧
      TArray.opIndexExpr (⟨some [10, 20, 30], 3, 4⟩ : TArray Nat) 3
        = { value := some default, reads := [] } ∧
      TArray.opIndex (⟨some [10, 20, 30], 3, 4⟩ : TArray Nat) 3 = { value := none, reads := [] } ∧
      (TArray.opIndex (⟨some [10, 20, 30], 3, 4⟩ : TArray Nat) 3).value ≠ some default ∧
      TArray.opIndexConst (⟨some [10, 20, 30], 3, 4⟩ : TArray Nat) 3
        = { value := none, reads := [] } ∧
      (TArray.opIndexConst (⟨some [10, 20, 30], 3, 4⟩ : TArray Nat) 3).value ≠ some default := by
  decide

/-- C2 fails on the code: at index `1` of the three-element array `[10, 20, 30]` the conditional
expression of `operator[]` dereferences cell `1` and is the stored `20`, but the non-const
overload returns a reference bound to the temporary copy and the const overload returns nothing,
so through neither does the caller receive a value where the claim says `20`. -/
theorem TArray.opIndex_in_range_dangling :
    TArray.opIndexExpr (⟨some [10, 20, 30], 3, 4⟩ : TArray Nat) 1
        = { value := some 20, reads := [1] } ∧
      TArray.opIndex (⟨some [10, 20, 30], 3, 4⟩ : TArray Nat) 1 = { value := none, reads := [1] } ∧
      (TArray.opIndex (⟨some [10, 20, 30], 3, 4⟩ : TArray Nat) 1).value ≠ some 20 ∧
      TArray.opIndexConst (⟨some [10, 20, 30], 3, 4⟩ : TArray Nat) 1
        = { value := none, reads := [1] } ∧
      (TArray.opIndexConst (⟨some [10, 20, 30], 3, 4⟩ : TArray Nat) 1).value ≠ some 20 := by
  decide

/-- On values that fit `int32_t` the wrap is the identity. -/
theorem wrap32_of_fits (x : Int) (hlo : -2147483648 ≤ x) (hhi : x < 2147483648) : wrap32 x = x := by
  unfold wrap32
  omega

/-- The scan of `wcslen` stops at the first NUL: after a run `w` free of NUL it counts `w`. -/
theorem wcslen_terminated (w rest : List wchar_t) (h0 : 0 ∉ w) :
    wcslen (w ++ 0 :: rest) = some w.length := by
  induction w with
  | nil => simp [wcslen]
  | cons c w ih =>
    have hc : c ≠ 0 := fun h => h0 (by simp [h])
    have hw : 0 ∉ w := fun h => h0 (by simp [h])
    simp [wcslen, hc, ih hw]

/-- Decoding a non-null view reads the characters before the first NUL, whatever the stored
count and capacity. -/
theorem FString.ToWString_terminated (w rest : List wchar_t) (n m : Int) (h0 : 0 ∉ w) :
    FString.ToWString ⟨some (w ++ 0 :: rest), n, m⟩ = some w := by
  simp [FString.ToWString, TArray.IsValid, wcslen_terminated w rest h0]

/-- The view built from a pointer to the non-empty run `w` followed by a NUL. -/
theorem FString.ofWStr_terminated (w rest : List wchar_t) (h0 : 0 ∉ w) (hne : w ≠ []) :
    FString.ofWStr (some (w ++ 0 :: rest)) =
      some { Data := if wrap32 (wrap32 (w.length : Int) + 1) ≠ 0 then some (w ++ 0 :: rest) else none
             NumElements := wrap32 (wrap32 (w.length : Int) + 1)
             MaxElements := wrap32 (wrap32 (w.length : Int) + 1) } := by
  cases w with
  | nil => exact absurd rfl hne
  | cons c w =>
    have hc : c ≠ 0 := fun h => h0 (by simp [h])
    have hlen := wcslen_terminated (c :: w) rest h0
    simp only [List.cons_append] at hlen
    simp only [FString.ofWStr, readCell, List.cons_append]
    simp [hc, hlen]

/-- C4, as stated, fails: the view left by `Clear()` on `FString(L"A")` has a stored length of
zero and a non-null pointer, and decodes to `"A"`, not to the empty string. -/
theorem FString.ToWString_zero_length_counterexample :
    (FString.ofWStr (some [65, 0])).bind TArray.Clear = some ⟨some [65, 0], 0, 2⟩ ∧
      TArray.Num (⟨some [65, 0], 0, 2⟩ : FString) = 0 ∧
      FString.ToWString ⟨some [65, 0], 0, 2⟩ = some [65] ∧
      (some [65] : Option (List wchar_t)) ≠ some [] := by
  decide

/-- C4, amended: a view with a null backing pointer decodes to the empty string whatever its
stored length; a view with a non-null pointer decodes to the characters before the first NUL of
its buffer whatever its stored length, zero included. -/
theorem FString.ToWString_by_pointer (s : FString) :
    (s.Data = none → s.ToWString = some []) ∧
      (∀ mem, s.Data = some mem → s.ToWString = (wcslen mem).map (fun len => mem.take len)) := by
  constructor
  · intro h
    simp [FString.ToWString, TArray.IsValid, h]
  · intro mem h
    simp [FString.ToWString, TArray.IsValid, h]

/-- Instance of amended C4: a null view that claims three characters decodes to the empty
string. -/
theorem FString.ToWString_by_pointer_witness :
    FString.ToWString ⟨none, 3, 3⟩ = some [] :=
  (FString.ToWString_by_pointer ⟨none, 3, 3⟩).1 rfl

/-- C5, as stated, fails: for the string of 4294967295 letters `A` the conversion
`int32_t(std::wcslen(wstr)) + 1` is zero, the view keeps a null pointer, and the round trip
returns the empty string. -/
theorem FString.roundtrip_counterexample :
    0 ∉ List.replicate 4294967295 (65 : wchar_t) ∧
      (FString.ofWStr (some (List.replicate 4294967295 (65 : wchar_t) ++ [0]))).bind FString.ToWString
        = some [] ∧
      (some [] : Option (List wchar_t)) ≠ some (List.replicate 4294967295 (65 : wchar_t)) := by
  have h0 : 0 ∉ List.replicate 4294967295 (65 : wchar_t) := by
    intro h
    exact absurd (List.eq_of_mem_replicate h) (by decide)
  have hne : List.replicate 4294967295 (65 : wchar_t) ≠ [] := by
    intro h
    have := congrArg List.length h
    rw [List.length_replicate] at this
    exact absurd this (by decide)
  have hwrap : wrap32 (wrap32 ((4294967295 : Nat) : Int) + 1) = 0 := by decide
  refine ⟨h0, ?_, ?_⟩
  · rw [FString.ofWStr_terminated _ [] h0 hne, List.length_replicate, hwrap]
    rfl
  · intro h
    exact hne (Option.some.inj h).symm

/-- C5, amended: for a NUL-terminated wide string `w` without embedded NUL whose length with the
terminator fits `int32_t`, `FString(w).ToWString()` is `w`, and its length is `Num() - 1` when
`Num() > 0`; the null pointer decodes to the empty string. -/
theorem FString.roundtrip (w rest : List wchar_t) (h0 : 0 ∉ w)
    (hlen : (w.length : Int) + 1 < 2147483648) :
    (FString.ofWStr none).bind FString.ToWString = some [] ∧
      ∃ s : FString, FString.ofWStr (some (w ++ 0 :: rest)) = some s ∧ s.ToWString = some w ∧
        (s.Num > 0 → (w.length : Int) = s.Num - 1) := by
  refine ⟨by decide, ?_⟩
  by_cases hw : w = []
  · subst hw
    refine ⟨⟨none, 0, 0⟩, ?_, ?_, ?_⟩
    · simp [FString.ofWStr, readCell, TArray.empty]
    · decide
    · intro h
      exact absurd h (by decide)
  · have hpos : 0 < w.length := List.length_pos.mpr hw
    have h1 : wrap32 (w.length : Int) = w.length := wrap32_of_fits _ (by omega) (by omega)
    have h2 : wrap32 ((w.length : Int) + 1) = w.length + 1 := wrap32_of_fits _ (by omega) (by omega)
    have hn : wrap32 (wrap32 (w.length : Int) + 1) = w.length + 1 := by rw [h1, h2]
    have hnz : (w.length : Int) + 1 ≠ 0 := by omega
    refine ⟨⟨some (w ++ 0 :: rest), w.length + 1, w.length + 1⟩, ?_, ?_, ?_⟩
    · rw [FString.ofWStr_terminated w rest h0 hw, hn]
      simp [hnz]
    · exact FString.ToWString_terminated w rest _ _ h0
    · intro _
      simp [TArray.Num]

/-- Instance of amended C5: the string `"AB"` followed in memory by its terminator and one more
cell. -/
theorem FString.roundtrip_witness :
    (FString.ofWStr (some [65, 66, 0, 9])).bind FString.ToWString = some [65, 66] := by
  obtain ⟨s, hs, hdec, _⟩ := (FString.roundtrip [65, 66] [9] (by decide) (by decide)).2
  have hs1 : FString.ofWStr (some [65, 66, 0, 9]) = some s := hs
  rw [hs1]
  exact hdec

/-! ## Lookups in the object table -/

/-- A counted scan that tests the slots `i, i + 1, ...` below `N` in turn returns the value of the
first slot that passes the test, and the null handle when none does, as soon as its iteration
budget covers the slots left. -/
theorem scan_first_match (N : Int) (hit : Int → Bool) (val : Int → UE_UObject)
    (loop : Nat → Int → UE_UObject)
    (hzero : ∀ i, loop 0 i = UE_UObject.null)
    (hsucc : ∀ fuel i, loop (fuel + 1) i =
      if i < N then (if hit i then val i else loop fuel (i + 1)) else UE_UObject.null) :
    ∀ fuel i, (N - i).toNat ≤ fuel →
      (∀ k, i ≤ k → k < N → hit k = true → (∀ j, i ≤ j → j < k → hit j = false) →
        loop fuel i = val k) ∧
      ((∀ j, i ≤ j → j < N → hit j = false) → loop fuel i = UE_UObject.null) := by
  intro fuel
  induction fuel with
  | zero =>
    intro i hfuel
    refine ⟨?_, fun _ => hzero i⟩
    intro k hik hkN _ _
    omega
  | succ fuel ih =>
    intro i hfuel
    rw [hsucc fuel i]
    by_cases hiN : i < N
    · have hrest := ih (i + 1) (by omega)
      rw [if_pos hiN]
      constructor
      · intro k hik hkN hk hmin
        by_cases hki : k = i
        · subst hki
          rw [if_pos hk]
        · have hi : hit i = false := hmin i (le_refl i) (by omega)
          simp only [hi, Bool.false_eq_true, if_false]
          exact hrest.1 k (by omega) hkN hk (fun j hj hjk => hmin j (by omega) hjk)
      · intro hnone
        have hi : hit i = false := hnone i (le_refl i) hiN
        simp only [hi, Bool.false_eq_true, if_false]
        exact hrest.2 (fun j hj hjN => hnone j (by omega) hjN)
    · rw [if_neg hiN]
      refine ⟨?_, fun _ => rfl⟩
      intro k hik hkN _ _
      omega

/-- C6: `FindObject` (resp. `FindObjectFast`) returns the object of the smallest index in
`[0, N)` whose slot is non-null and whose full name (resp. short name) equals the query, and the
null handle when there is no such index. -/
theorem UE_UObjectArray.FindObject_first_match (env : Foreign) (query : String) :
    ((∀ k, 0 ≤ k → k < env.GetNumElements →
        (env.GetObjectPtr k ≠ 0 ∧ env.GetFullName ⟨env.GetObjectPtr k⟩ = query) →
        (∀ j, 0 ≤ j → j < k →
          ¬ (env.GetObjectPtr j ≠ 0 ∧ env.GetFullName ⟨env.GetObjectPtr j⟩ = query)) →
        UE_UObjectArray.FindObject env query = ⟨env.GetObjectPtr k⟩) ∧
      ((∀ j, 0 ≤ j → j < env.GetNumElements →
          ¬ (env.GetObjectPtr j ≠ 0 ∧ env.GetFullName ⟨env.GetObjectPtr j⟩ = query)) →
        UE_UObjectArray.FindObject env query = UE_UObject.null)) ∧
    ((∀ k, 0 ≤ k → k < env.GetNumElements →
        (env.GetObjectPtr k ≠ 0 ∧ env.GetName ⟨env.GetObjectPtr k⟩ = query) →
        (∀ j, 0 ≤ j → j < k →
          ¬ (env.GetObjectPtr j ≠ 0 ∧ env.GetName ⟨env.GetObjectPtr j⟩ = query)) →
        UE_UObjectArray.FindObjectFast env query = ⟨env.GetObjectPtr k⟩) ∧
      ((∀ j, 0 ≤ j → j < env.GetNumElements →
          ¬ (env.GetObjectPtr j ≠ 0 ∧ env.GetName ⟨env.GetObjectPtr j⟩ = query)) →
        UE_UObjectArray.FindObjectFast env query = UE_UObject.null)) := by
  have key : ∀ (label : UE_UObject → String) (loop : Nat → Int → UE_UObject),
      (∀ i, loop 0 i = UE_UObject.null) →
      (∀ fuel i, loop (fuel + 1) i =
        if i < env.GetNumElements then
          (if (UE_UObject.toBool ⟨env.GetObjectPtr i⟩ && label ⟨env.GetObjectPtr i⟩ == query)
            then (⟨env.GetObjectPtr i⟩ : UE_UObject) else loop fuel (i + 1))
        else UE_UObject.null) →
      (∀ k, 0 ≤ k → k < env.GetNumElements →
        (env.GetObjectPtr k ≠ 0 ∧ label ⟨env.GetObjectPtr k⟩ = query) →
        (∀ j, 0 ≤ j → j < k → ¬ (env.GetObjectPtr j ≠ 0 ∧ label ⟨env.GetObjectPtr j⟩ = query)) →
        loop env.GetNumElements.toNat 0 = ⟨env.GetObjectPtr k⟩) ∧
      ((∀ j, 0 ≤ j → j < env.GetNumElements →
          ¬ (env.GetObjectPtr j ≠ 0 ∧ label ⟨env.GetObjectPtr j⟩ = query)) →
        loop env.GetNumElements.toNat 0 = UE_UObject.null) := by
    intro label loop hzero hsucc
    have hiff : ∀ j, (UE_UObject.toBool ⟨env.GetObjectPtr j⟩ && label ⟨env.GetObjectPtr j⟩ == query)
        = true ↔ (env.GetObjectPtr j ≠ 0 ∧ label ⟨env.GetObjectPtr j⟩ = query) := by
      intro j
      simp [UE_UObject.toBool]
    have hscan := scan_first_match env.GetNumElements
      (fun i => UE_UObject.toBool ⟨env.GetObjectPtr i⟩ && label ⟨env.GetObjectPtr i⟩ == query)
      (fun i => ⟨env.GetObjectPtr i⟩) loop hzero hsucc env.GetNumElements.toNat 0 (by omega)
    constructor
    · intro k hk0 hkN hk hmin
      refine hscan.1 k hk0 hkN ((hiff k).mpr hk) ?_
      intro j hj hjk
      have hnot := hmin j hj hjk
      rw [← hiff j] at hnot
      simpa using hnot
    · intro hnone
      refine hscan.2 ?_
      intro j hj hjN
      have hnot := hnone j hj hjN
      rw [← hiff j] at hnot
      simpa using hnot
  exact ⟨key env.GetFullName (UE_UObjectArray.FindObject.loop env query) (fun _ => rfl)
      (fun _ _ => rfl),
    key env.GetName (UE_UObjectArray.FindObjectFast.loop env query) (fun _ => rfl)
      (fun _ _ => rfl)⟩

/-- Instance of C6: in the sample table the full name of `Pawn` is found at slot `2`, past the
empty slot and the slot of `Actor`. -/
theorem UE_UObjectArray.FindObject_first_match_witness :
    UE_UObjectArray.FindObject sampleTable "Class Engine.Pawn" = ⟨8192⟩ :=
  (UE_UObjectArray.FindObject_first_match sampleTable "Class Engine.Pawn").1.1 2
    (by decide) (by decide) (by decide)
    (fun j hj hjk => by
      have hcases : j = 0 ∨ j = 1 := by omega
      rcases hcases with rfl | rfl <;> decide)

/-- C7 fails on the code: `FindObjectFastInOuter` tests the names of a slot without testing the
slot for null, unlike `FindObject` and `FindObjectFast`. In the table whose slot `0` is empty and
whose slot `1` holds an object with empty short name and no outer, the query `("", "")` is
answered from the empty slot with the null handle, though slot `1` holds a matching object. -/
theorem UE_UObjectArray.FindObjectFastInOuter_null_slot_stops :
    UE_UObjectArray.FindObjectFastInOuter unnamedTable "" "" = UE_UObject.null ∧
      unnamedTable.GetObjectPtr 0 = 0 ∧
      (unnamedTable.GetObjectPtr 1 ≠ 0 ∧ unnamedTable.GetName ⟨unnamedTable.GetObjectPtr 1⟩ = "" ∧
        unnamedTable.GetName (unnamedTable.GetOuter ⟨unnamedTable.GetObjectPtr 1⟩) = "") ∧
      UE_UObject.null ≠ ⟨unnamedTable.GetObjectPtr 1⟩ ∧
      UE_UObjectArray.FindObjectFast unnamedTable "" = ⟨unnamedTable.GetObjectPtr 1⟩ := by
  decide

/-- What `FindObjectFastInOuter` computes: the handle of the smallest slot in `[0, N)`, empty or
not, on which the two name tests pass, and the null handle when they pass on no slot. -/
theorem UE_UObjectArray.FindObjectFastInOuter_first_passing_slot (env : Foreign)
    (name outer : String) :
    (∀ k, 0 ≤ k → k < env.GetNumElements →
        (env.GetName ⟨env.GetObjectPtr k⟩ = name ∧
          env.GetName (env.GetOuter ⟨env.GetObjectPtr k⟩) = outer) →
        (∀ j, 0 ≤ j → j < k →
          ¬ (env.GetName ⟨env.GetObjectPtr j⟩ = name ∧
            env.GetName (env.GetOuter ⟨env.GetObjectPtr j⟩) = outer)) →
        UE_UObjectArray.FindObjectFastInOuter env name outer = ⟨env.GetObjectPtr k⟩) ∧
      ((∀ j, 0 ≤ j → j < env.GetNumElements →
          ¬ (env.GetName ⟨env.GetObjectPtr j⟩ = name ∧
            env.GetName (env.GetOuter ⟨env.GetObjectPtr j⟩) = outer)) →
        UE_UObjectArray.FindObjectFastInOuter env name outer = UE_UObject.null) := by
  have hiff : ∀ j, (env.GetName ⟨env.GetObjectPtr j⟩ == name &&
      env.GetName (env.GetOuter ⟨env.GetObjectPtr j⟩) == outer) = true ↔
      (env.GetName ⟨env.GetObjectPtr j⟩ = name ∧
        env.GetName (env.GetOuter ⟨env.GetObjectPtr j⟩) = outer) := by
    intro j
    simp
  have hscan := scan_first_match env.GetNumElements
    (fun i => env.GetName ⟨env.GetObjectPtr i⟩ == name &&
      env.GetName (env.GetOuter ⟨env.GetObjectPtr i⟩) == outer)
    (fun i => ⟨env.GetObjectPtr i⟩) (UE_UObjectArray.FindObjectFastInOuter.loop env name outer)
    (fun _ => rfl) (fun _ _ => rfl) env.GetNumElements.toNat 0 (by omega)
  constructor
  · intro k hk0 hkN hk hmin
    refine hscan.1 k hk0 hkN ((hiff k).mpr hk) ?_
    intro j hj hjk
    have hnot := hmin j hj hjk
    rw [← hiff j] at hnot
    simpa using hnot
  · intro hnone
    refine hscan.2 ?_
    intro j hj hjN
    have hnot := hnone j hj hjN
    rw [← hiff j] at hnot
    simpa using hnot

/-! ## Mutation of a scratch buffer -/

/-- C8 fails on the code: `Slack()` is `NumElements - MaxElements`, negative exactly when capacity
is left, so `Add` on the fresh `TArray(4)` returns false and stores nothing. -/
theorem TArray.Add_fresh_refused :
    TArray.Slack (TArray.ofSize 4 : TArray Nat) = -4 ∧
      TArray.Add (TArray.ofSize 4 : TArray Nat) 7 = some (false, TArray.ofSize 4) ∧
      (TArray.ofSize 4 : TArray Nat) = ⟨some [0, 0, 0, 0], 0, 4⟩ := by
  decide

/-- What `Add` does whenever capacity is left: nothing, and it returns false. -/
theorem TArray.Add_unused_capacity {T : Type} (a : TArray T) (e : T)
    (h : 0 ≤ a.Num ∧ a.Num < a.Max) (hmax : a.Max < 2147483648) :
    a.Add e = some (false, a) := by
  unfold TArray.Num TArray.Max at h
  unfold TArray.Max at hmax
  have hs : a.Slack = a.NumElements - a.MaxElements :=
    wrap32_of_fits _ (by omega) (by omega)
  have hle : a.Slack ≤ 0 := by omega
  simp [TArray.Add, hle]

/-- C9 fails on the code: the loop of `RemoveAt` copies `Data[i + 1]` to `Data[i]` at every
iteration instead of shifting cell `index + 1` to cell `index`, so removing index `0` of
`[10, 20, 30, 40]` leaves `[20, 20, 30]` and not `[20, 30, 40]`. -/
theorem TArray.RemoveAt_front_not_shifted :
    TArray.RemoveAt (⟨some [10, 20, 30, 40], 4, 4⟩ : TArray Nat) 0
        = some (true, ⟨some [20, 20, 30, 40], 3, 4⟩) ∧
      List.take 3 [20, 20, 30, 40] = [20, 20, 30] ∧
      ([20, 20, 30] : List Nat) ≠ [20, 30, 40] := by
  decide

/-- C10: `RemoveAt` at an index below zero or at least `Num()` returns false and leaves the
array as it was: same count, same capacity, same pointer and cells. -/
theorem TArray.RemoveAt_out_of_range {T : Type} (a : TArray T) (i : Int)
    (h : i < 0 ∨ i ≥ a.Num) :
    a.RemoveAt i = some (false, a) := by
  have hidx : a.IsValidIndex i = false := by
    unfold TArray.IsValidIndex
    unfold TArray.Num at h
    rcases h with h | h
    · simp [h]
    · simp [Int.not_lt.mpr h]
  simp [TArray.RemoveAt, hidx]

/-- Instance of C10: removing index `3` of the three-element array `[10, 20, 30]`. -/
theorem TArray.RemoveAt_out_of_range_witness :
    TArray.RemoveAt (⟨some [10, 20, 30], 3, 4⟩ : TArray Nat) 3
      = some (false, ⟨some [10, 20, 30], 3, 4⟩) :=
  TArray.RemoveAt_out_of_range ⟨some [10, 20, 30], 3, 4⟩ 3 (by decide)

/-! ## Clear -/

/-- What `Clear()` does on every array: it returns; afterwards `Num()` is 0 and no index is valid,
so the conditional expression of an indexed access is `T()` without a dereference, while `Max()`,
the backing pointer and the cells it points to are what they were; a second `Clear()` changes
nothing more. -/
theorem TArray.Clear_frame {T : Type} [Inhabited T] (a : TArray T) :
    ∃ a1 : TArray T, a.Clear = some a1 ∧ a1.Num = 0 ∧
      (∀ i : Int, a1.IsValidIndex i = false ∧
        a1.opIndexExpr i = { value := some default, reads := [] }) ∧
      a1.Max = a.Max ∧ a1.Data = a.Data ∧ a1.Clear = some a1 := by
  have hwrap : wrap32 0 = 0 := by decide
  have hclear : ∀ b : TArray T, b.Clear = some { b with NumElements := 0 } := by
    intro b
    cases hb : b.Data <;> simp [TArray.Clear, hb, hwrap]
  refine ⟨{ a with NumElements := 0 }, hclear a, rfl, ?_, rfl, rfl, hclear _⟩
  intro i
  have hidx : TArray.IsValidIndex ({ a with NumElements := 0 } : TArray T) i = false := by
    unfold TArray.IsValidIndex
    by_cases h0 : 0 ≤ i
    · have : ¬ i < 0 := by omega
      simp [this]
    · simp [h0]
  exact ⟨hidx, by simp [TArray.opIndexExpr, hidx]⟩

/-- C13 fails on the code in its clause on indexed access: `Clear()` on the array `[10, 20, 30]`
sets the count to zero and leaves the capacity, the pointer and the cells as they were, and is
idempotent; an indexed access afterwards dereferences no cell and its conditional expression is
`T()`, but the non-const `operator[]` returns a reference bound to that temporary and the const
overload returns nothing, so through neither does the caller receive a value where the claim says
`T()`. -/
theorem TArray.Clear_then_index_dangling :
    TArray.Clear (⟨some [10, 20, 30], 3, 4⟩ : TArray Nat) = some ⟨some [10, 20, 30], 0, 4⟩ ∧
      TArray.Clear (⟨some [10, 20, 30], 0, 4⟩ : TArray Nat) = some ⟨some [10, 20, 30], 0, 4⟩ ∧
      TArray.opIndexExpr (⟨some [10, 20, 30], 0, 4⟩ : TArray Nat) 0
        = { value := some default, reads := [] } ∧
      TArray.opIndex (⟨some [10, 20, 30], 0, 4⟩ : TArray Nat) 0 = { value := none, reads := [] } ∧
      (TArray.opIndex (⟨some [10, 20, 30], 0, 4⟩ : TArray Nat) 0).value ≠ some default ∧
      TArray.opIndexConst (⟨some [10, 20, 30], 0, 4⟩ : TArray Nat) 0
        = { value := none, reads := [] } ∧
      (TArray.opIndexConst (⟨some [10, 20, 30], 0, 4⟩ : TArray Nat) 0).value ≠ some default := by
  decide

/-! ## The const overload of the subscript -/

/-- C14 fails on the code: the const overload of `operator[]` has no `return` statement. On the
array `[10, 20, 30]` at index `1` it dereferences cell `1`, its conditional expression is the
stored `20`, and that value is discarded: the caller receives no value where the claim says `20`.
The non-const overload hands its caller no value either. -/
theorem TArray.opIndexConst_returns_nothing :
    TArray.opIndexExpr (⟨some [10, 20, 30], 3, 4⟩ : TArray Nat) 1
        = { value := some 20, reads := [1] } ∧
      TArray.opIndexConst (⟨some [10, 20, 30], 3, 4⟩ : TArray Nat) 1
        = { value := none, reads := [1] } ∧
      (TArray.opIndexConst (⟨some [10, 20, 30], 3, 4⟩ : TArray Nat) 1).value ≠ some 20 ∧
      (TArray.opIndex (⟨some [10, 20, 30], 3, 4⟩ : TArray Nat) 1).value = none := by
  decide

/-- At every array and index the const overload dereferences what the conditional expression
dereferences and returns no value; so does the non-const overload. -/
theorem TArray.opIndexConst_reads {T : Type} [Inhabited T] (a : TArray T) (i : Int) :
    (a.opIndexConst i).reads = (a.opIndexExpr i).reads ∧ (a.opIndexConst i).value = none ∧
      a.opIndexConst i = a.opIndex i := by
  simp [TArray.opIndexConst, TArray.opIndex, TArray.opIndexExpr]

/-! ## The typed class test -/

/-- C15: `o.IsA<T>()` is false when `T::StaticClass()` is the null handle, and is
`o.IsA(T::StaticClass())` otherwise. -/
theorem UE_UObject.IsA_typed (StaticClass : UE_UObject)
    (IsA_cmp : UE_UObject → UE_UObject → Bool) (o : UE_UObject) :
    (StaticClass = UE_UObject.null → UE_UObject.IsA StaticClass IsA_cmp o = false) ∧
      (StaticClass ≠ UE_UObject.null →
        UE_UObject.IsA StaticClass IsA_cmp o = IsA_cmp o StaticClass) := by
  constructor
  · intro h
    subst h
    simp [UE_UObject.IsA, UE_UObject.toBool, UE_UObject.null]
  · intro h
    have hobj : StaticClass.object ≠ 0 := by
      intro h0
      apply h
      cases StaticClass
      simp_all [UE_UObject.null]
    simp [UE_UObject.IsA, UE_UObject.toBool, hobj]

/-- Instance of C15: with a class at address 4096 and a test that compares addresses, the typed
test on the object at that address is the untyped one, and is true. -/
theorem UE_UObject.IsA_typed_witness :
    UE_UObject.IsA ⟨4096⟩ (fun o cmp => decide (o.object = cmp.object)) ⟨4096⟩ = true :=
  ((UE_UObject.IsA_typed ⟨4096⟩ (fun o cmp => decide (o.object = cmp.object)) ⟨4096⟩).2
    (by decide)).trans (by decide)

/-! ## Assignment of a wide-character pointer -/

/-- C16: `operator=(const wchar_t *&&)` returns exactly when `FString(other)` does, returns that
fresh view, and leaves the backing pointer, `Num()` and `Max()` of the assigned-to string as they
were. -/
theorem FString.opAssign_frame (self : FString) (other : Option (List wchar_t))
    (ret after : FString) :
    FString.opAssign self other = some (ret, after) ↔
      (FString.ofWStr other = some ret ∧
        after.Data = self.Data ∧ after.Num = self.Num ∧ after.Max = self.Max) := by
  cases after with
  | mk d n m =>
    cases self with
    | mk d0 n0 m0 =>
      cases h : FString.ofWStr other with
      | none => simp [FString.opAssign, h]
      | some r =>
        simp only [FString.opAssign, h, TArray.Num, TArray.Max, Option.some.injEq, Prod.mk.injEq,
          TArray.mk.injEq]
        constructor
        · rintro ⟨h1, h2, h3, h4⟩
          exact ⟨h1, h2.symm, h3.symm, h4.symm⟩
        · rintro ⟨h1, h2, h3, h4⟩
          exact ⟨h1, h2.symm, h3.symm, h4.symm⟩

/-- Instance of C16: assigning `L"BC"` to the string `"A"` returns the view of `"BC"` and leaves
the string `"A"` as it was. -/
theorem FString.opAssign_frame_witness :
    FString.opAssign ⟨some [65, 0], 2, 2⟩ (some [66, 67, 0])
      = some (⟨some [66, 67, 0], 3, 3⟩, ⟨some [65, 0], 2, 2⟩) :=
  (FString.opAssign_frame ⟨some [65, 0], 2, 2⟩ (some [66, 67, 0]) ⟨some [66, 67, 0], 3, 3⟩
    ⟨some [65, 0], 2, 2⟩).mpr ⟨by decide, rfl, rfl, rfl⟩

/-! ## Construction of FString -/

/-- C11, as stated, fails: for the non-empty string of 4294967295 letters `A` the count
`int32_t(std::wcslen(wstr)) + 1` is zero, not the length plus one, and the view is invalid. -/
theorem FString.ofWStr_count_counterexample :
    0 ∉ List.replicate 4294967295 (65 : wchar_t) ∧
      1 ≤ (List.replicate 4294967295 (65 : wchar_t)).length ∧
      FString.ofWStr (some (List.replicate 4294967295 (65 : wchar_t) ++ [0])) = some ⟨none, 0, 0⟩ ∧
      TArray.Num (⟨none, 0, 0⟩ : FString)
        ≠ ((List.replicate 4294967295 (65 : wchar_t)).length : Int) + 1 := by
  have h0 : 0 ∉ List.replicate 4294967295 (65 : wchar_t) := by
    intro h
    exact absurd (List.eq_of_mem_replicate h) (by decide)
  have hlen : (List.replicate 4294967295 (65 : wchar_t)).length = 4294967295 :=
    List.length_replicate _ _
  have hne : List.replicate 4294967295 (65 : wchar_t) ≠ [] := by
    intro h
    have := congrArg List.length h
    rw [hlen] at this
    exact absurd this (by decide)
  have hwrap : wrap32 (wrap32 ((4294967295 : Nat) : Int) + 1) = 0 := by decide
  refine ⟨h0, ?_, ?_, ?_⟩
  · rw [hlen]
    decide
  · rw [FString.ofWStr_terminated _ [] h0 hne, hlen, hwrap]
    rfl
  · rw [hlen]
    decide

/-- C11, amended: for a non-empty NUL-terminated string of length `n` with `n + 1` in the range
of `int32_t`, the view has `Num() = Max() = n + 1` and points at the given characters; for the
null pointer and for the empty string it has `Num() = Max() = 0`, a null backing pointer, and is
invalid. -/
theorem FString.ofWStr_counts (w rest : List wchar_t) (h0 : 0 ∉ w) (hne : 1 ≤ w.length)
    (hlen : (w.length : Int) + 1 < 2147483648) :
    FString.ofWStr (some (w ++ 0 :: rest))
        = some ⟨some (w ++ 0 :: rest), (w.length : Int) + 1, (w.length : Int) + 1⟩ ∧
      TArray.IsValid (⟨some (w ++ 0 :: rest), (w.length : Int) + 1, (w.length : Int) + 1⟩ : FString)
        = true ∧
      FString.ofWStr none = some ⟨none, 0, 0⟩ ∧
      FString.ofWStr (some (0 :: rest)) = some ⟨none, 0, 0⟩ ∧
      TArray.IsValid (⟨none, 0, 0⟩ : FString) = false := by
  have hw : w ≠ [] := by
    intro h
    rw [h] at hne
    exact absurd hne (by decide)
  have h1 : wrap32 (w.length : Int) = w.length := wrap32_of_fits _ (by omega) (by omega)
  have h2 : wrap32 ((w.length : Int) + 1) = w.length + 1 := wrap32_of_fits _ (by omega) (by omega)
  have hn : wrap32 (wrap32 (w.length : Int) + 1) = w.length + 1 := by rw [h1, h2]
  have hnz : (w.length : Int) + 1 ≠ 0 := by omega
  refine ⟨?_, rfl, rfl, ?_, rfl⟩
  · rw [FString.ofWStr_terminated w rest h0 hw, hn]
    simp [hnz]
  · simp [FString.ofWStr, readCell, TArray.empty]

/-- Instance of amended C11: the string `"AB"` gives a view of three characters over the given
memory. -/
theorem FString.ofWStr_counts_witness :
    FString.ofWStr (some [65, 66, 0, 9]) = some ⟨some [65, 66, 0, 9], 3, 3⟩ :=
  (FString.ofWStr_counts [65, 66] [9] (by decide) (by decide) (by decide)).1

/-! ## The count never exceeds the capacity -/

/-- The loop of `RemoveAt` runs to its end when cell `i + 1` is inside the allocation for as long
as an iteration remains. -/
theorem TArray.RemoveAt.loop_returns {T : Type} (i n : Int) :
    ∀ (fuel : Nat) (index : Int) (cells : List T), (n - index).toNat ≤ fuel →
      (index < n → 0 ≤ i ∧ (i + 1).toNat < cells.length) →
      ∃ data, TArray.RemoveAt.loop i n fuel index (some cells) = some data := by
  intro fuel
  induction fuel with
  | zero =>
    intro index cells hfuel _
    have hdone : ¬ index < n := by omega
    exact ⟨some cells, by simp [TArray.RemoveAt.loop, hdone]⟩
  | succ fuel ih =>
    intro index cells hfuel hroom
    by_cases hlt : index < n
    · obtain ⟨hi0, hi1⟩ := hroom hlt
      have hread : readCell cells (i + 1) = some (cells.get ⟨(i + 1).toNat, hi1⟩) := by
        have hpos : 0 ≤ i + 1 := by omega
        simp [readCell, hpos, List.getElem?_eq_getElem hi1]
      have hiw : i.toNat < cells.length := by omega
      have hwrite : writeCell cells i (cells.get ⟨(i + 1).toNat, hi1⟩)
          = some (cells.set i.toNat (cells.get ⟨(i + 1).toNat, hi1⟩)) := by
        simp [writeCell, hi0, hiw]
      obtain ⟨data, hdata⟩ := ih (index + 1)
        (cells.set i.toNat (cells.get ⟨(i + 1).toNat, hi1⟩)) (by omega)
        (fun _ => ⟨hi0, by rw [List.length_set]; exact hi1⟩)
      refine ⟨data, ?_⟩
      simp only [TArray.RemoveAt.loop, if_pos hlt, hread, hwrite]
      exact hdata
    · exact ⟨some cells, by simp [TArray.RemoveAt.loop, hlt]⟩

/-- C12, as stated, fails: `FString(wstr)` on the string of 2147483648 letters `A` stores the
count `int32_t(2147483648) + 1 = -2147483647`, which is below zero. -/
theorem FString.ofWStr_negative_count_counterexample :
    0 ∉ List.replicate 2147483648 (65 : wchar_t) ∧
      FString.ofWStr (some (List.replicate 2147483648 (65 : wchar_t) ++ [0]))
        = some ⟨some (List.replicate 2147483648 (65 : wchar_t) ++ [0]), -2147483647, -2147483647⟩ ∧
      ¬ (0 ≤ TArray.Num (⟨some (List.replicate 2147483648 (65 : wchar_t) ++ [0]),
        -2147483647, -2147483647⟩ : FString)) := by
  have h0 : 0 ∉ List.replicate 2147483648 (65 : wchar_t) := by
    intro h
    exact absurd (List.eq_of_mem_replicate h) (by decide)
  have hlen : (List.replicate 2147483648 (65 : wchar_t)).length = 2147483648 :=
    List.length_replicate _ _
  have hne : List.replicate 2147483648 (65 : wchar_t) ≠ [] := by
    intro h
    have := congrArg List.length h
    rw [hlen] at this
    exact absurd this (by decide)
  have hwrap : wrap32 (wrap32 ((2147483648 : Nat) : Int) + 1) = -2147483647 := by decide
  refine ⟨h0, ?_, ?_⟩
  · have hnz : (-2147483647 : Int) ≠ 0 := by decide
    rw [FString.ofWStr_terminated _ [] h0 hne, hlen, hwrap, if_pos hnz]
  · show ¬ ((0 : Int) ≤ -2147483647)
    decide

/-- After `FString(wstr)` on a NUL-terminated string that fits `int32_t` with its terminator, the
count is between zero and the capacity. -/
theorem FString.ofWStr_count_within_capacity (w rest : List wchar_t) (h0 : 0 ∉ w)
    (hlen : (w.length : Int) + 1 < 2147483648) :
    ∃ s : FString, FString.ofWStr (some (w ++ 0 :: rest)) = some s ∧ 0 ≤ s.Num ∧ s.Num ≤ s.Max := by
  by_cases hw : w = []
  · subst hw
    refine ⟨⟨none, 0, 0⟩, ?_, ?_⟩
    · simp [FString.ofWStr, readCell, TArray.empty]
    · decide
  · have h1 : wrap32 (w.length : Int) = w.length := wrap32_of_fits _ (by omega) (by omega)
    have h2 : wrap32 ((w.length : Int) + 1) = w.length + 1 :=
      wrap32_of_fits _ (by omega) (by omega)
    have hn : wrap32 (wrap32 (w.length : Int) + 1) = w.length + 1 := by rw [h1, h2]
    have hnz : (w.length : Int) + 1 ≠ 0 := by omega
    refine ⟨⟨some (w ++ 0 :: rest), w.length + 1, w.length + 1⟩, ?_, ?_, ?_⟩
    · rw [FString.ofWStr_terminated w rest h0 hw, hn]
      simp [hnz]
    · show (0 : Int) ≤ w.length + 1
      omega
    · exact le_refl _

/-- Whatever `RemoveAt` returns on an array whose count is between zero and the capacity, the
count afterwards is so too. -/
theorem TArray.RemoveAt_count_within_capacity {T : Type} (a : TArray T) (i : Int)
    (hinv : 0 ≤ a.Num ∧ a.Num ≤ a.Max) (r : Bool × TArray T) (hr : a.RemoveAt i = some r) :
    0 ≤ r.2.Num ∧ r.2.Num ≤ r.2.Max := by
  unfold TArray.Num TArray.Max at hinv
  by_cases hidx : a.IsValidIndex i = true
  · have hi : 0 ≤ i ∧ i < a.NumElements := by
      simpa [TArray.IsValidIndex] using hidx
    simp only [TArray.RemoveAt, hidx, Bool.not_true, Bool.false_eq_true, if_false] at hr
    cases hloop : TArray.RemoveAt.loop i (a.NumElements - 1)
        ((a.NumElements - 1 - i).toNat) i a.Data with
    | none => simp [hloop] at hr
    | some data =>
      simp only [hloop, Option.some.injEq] at hr
      subst hr
      simp only [TArray.Num, TArray.Max]
      omega
  · have hfalse : a.IsValidIndex i = false := by simpa using hidx
    simp only [TArray.RemoveAt, hfalse, Bool.not_false, if_true, Option.some.injEq] at hr
    subst hr
    exact hinv

/-- On an array whose buffer holds at least `Num()` cells, `RemoveAt` returns at every index. -/
theorem TArray.RemoveAt_returns {T : Type} (a : TArray T) (i : Int) (cells : List T)
    (hdata : a.Data = some cells) (hroom : a.Num ≤ cells.length) :
    ∃ r, a.RemoveAt i = some r := by
  unfold TArray.Num at hroom
  by_cases hidx : a.IsValidIndex i = true
  · have hi : 0 ≤ i ∧ i < a.NumElements := by
      simpa [TArray.IsValidIndex] using hidx
    obtain ⟨data, hloop⟩ := TArray.RemoveAt.loop_returns i (a.NumElements - 1)
      ((a.NumElements - 1 - i).toNat) i cells (le_refl _)
      (fun hlt => ⟨hi.1, by omega⟩)
    exact ⟨(true, { a with Data := data, NumElements := a.NumElements - 1 }), by
      simp [TArray.RemoveAt, hidx, hdata, hloop]⟩
  · have hfalse : a.IsValidIndex i = false := by simpa using hidx
    exact ⟨(false, a), by simp [TArray.RemoveAt, hfalse]⟩

/-- On an array whose count is between zero and the capacity, `Add` returns false and changes
nothing (`MaxElements` is an `int32_t`). -/
theorem TArray.Add_count_within_capacity {T : Type} (a : TArray T) (e : T)
    (hinv : 0 ≤ a.Num ∧ a.Num ≤ a.Max) (hmax : a.Max < 2147483648) :
    a.Add e = some (false, a) := by
  unfold TArray.Num TArray.Max at hinv
  unfold TArray.Max at hmax
  have hs : a.Slack = a.NumElements - a.MaxElements :=
    wrap32_of_fits _ (by omega) (by omega)
  have hle : a.Slack ≤ 0 := by omega
  simp [TArray.Add, hle]

/-- On every array `Clear()` returns the array with its count set to zero. -/
theorem TArray.Clear_eq {T : Type} (a : TArray T) :
    a.Clear = some { a with NumElements := 0 } := by
  have hwrap : wrap32 0 = 0 := by decide
  cases hb : a.Data <;> simp [TArray.Clear, hb, hwrap]

/-- C12, amended: `0 <= Num() <= Max()` holds after `TArray()`, after `TArray(size)` for
`size >= 0`, and after `FString(wstr)` for the null pointer and for a NUL-terminated string whose
length with the terminator fits `int32_t`; `Add`, `RemoveAt` and `Clear` keep it, whatever they
return (`Add` and `Clear` always return; `RemoveAt` returns at least when the buffer holds
`Num()` cells, and keeps it whenever it returns). -/
theorem TArray.count_within_capacity {T : Type} [Inhabited T] :
    (0 ≤ TArray.Num (TArray.empty : TArray T) ∧
      TArray.Num (TArray.empty : TArray T) ≤ TArray.Max (TArray.empty : TArray T)) ∧
    (∀ size : Int, 0 ≤ size →
      0 ≤ TArray.Num (TArray.ofSize size : TArray T) ∧
        TArray.Num (TArray.ofSize size : TArray T) ≤ TArray.Max (TArray.ofSize size : TArray T)) ∧
    (∃ s : FString, FString.ofWStr none = some s ∧ 0 ≤ s.Num ∧ s.Num ≤ s.Max) ∧
    (∀ w rest : List wchar_t, 0 ∉ w → (w.length : Int) + 1 < 2147483648 →
      ∃ s : FString, FString.ofWStr (some (w ++ 0 :: rest)) = some s ∧ 0 ≤ s.Num ∧ s.Num ≤ s.Max) ∧
    (∀ (a : TArray T) (e : T), 0 ≤ a.Num ∧ a.Num ≤ a.Max → a.Max < 2147483648 →
      ∃ r, a.Add e = some r ∧ 0 ≤ r.2.Num ∧ r.2.Num ≤ r.2.Max) ∧
    (∀ (a : TArray T) (i : Int), 0 ≤ a.Num ∧ a.Num ≤ a.Max →
      (∀ r, a.RemoveAt i = some r → 0 ≤ r.2.Num ∧ r.2.Num ≤ r.2.Max) ∧
      (∀ cells, a.Data = some cells → a.Num ≤ cells.length → ∃ r, a.RemoveAt i = some r)) ∧
    (∀ a : TArray T, 0 ≤ a.Num ∧ a.Num ≤ a.Max →
      ∃ a1, a.Clear = some a1 ∧ 0 ≤ a1.Num ∧ a1.Num ≤ a1.Max) := by
  refine ⟨⟨le_refl _, le_refl _⟩, ?_, ⟨⟨none, 0, 0⟩, rfl, by decide⟩, ?_, ?_, ?_, ?_⟩
  · intro size hsize
    exact ⟨le_refl _, hsize⟩
  · intro w rest h0 hlen
    exact FString.ofWStr_count_within_capacity w rest h0 hlen
  · intro a e hinv hmax
    exact ⟨(false, a), TArray.Add_count_within_capacity a e hinv hmax, hinv⟩
  · intro a i hinv
    exact ⟨fun r hr => TArray.RemoveAt_count_within_capacity a i hinv r hr,
      fun cells hdata hroom => TArray.RemoveAt_returns a i cells hdata hroom⟩
  · intro a hinv
    exact ⟨{ a with NumElements := 0 }, TArray.Clear_eq a, le_refl _, hinv.1.trans hinv.2⟩

/-- Instance of amended C12 on the array `[10, 20, 30]` with capacity four: after `RemoveAt(1)`,
which returns, the count is two, within the capacity; and the fresh `TArray(4)` has a count
within its capacity. -/
theorem TArray.count_within_capacity_witness :
    (∃ r, TArray.RemoveAt (⟨some [10, 20, 30], 3, 4⟩ : TArray Nat) 1 = some r ∧
      0 ≤ r.2.Num ∧ r.2.Num ≤ r.2.Max) ∧
    (0 ≤ TArray.Num (TArray.ofSize 4 : TArray Nat) ∧
      TArray.Num (TArray.ofSize 4 : TArray Nat) ≤ TArray.Max (TArray.ofSize 4 : TArray Nat)) := by
  have hall := @TArray.count_within_capacity Nat _
  have hrem := hall.2.2.2.2.2.1 ⟨some [10, 20, 30], 3, 4⟩ 1 (by decide)
  obtain ⟨r, hr⟩ := hrem.2 [10, 20, 30] rfl (by decide)
  exact ⟨⟨r, hr, hrem.1 r hr⟩, hall.2.1 4 (by decide)⟩

/-! ## Flag tables -/

set_option maxRecDepth 20000 in
/-- C17: in each of the four flag enumerations every named flag other than the zero value and
the composite masks is a power of two within the width of the underlying type (bit below 31 for
`int32_t`, below 32 for `uint32_t`, below 64 for `uint64_t`), and no two flags of one enumeration
share a bit; `Unreachable` is `2^28`, `PendingKill` is `2^29`, and `AllFlags` is `0x7F800000`,
the union of the eight internal flags. -/
theorem flag_tables_are_bitmask_sets :
    ((∀ f ∈ EInternalObjectFlags.flags,
        (∃ k, k < 31 ∧ f = 2 ^ k) ∧ f ≤ EInternalObjectFlags.maxValue) ∧
      List.Pairwise (fun f g => f &&& g = 0) EInternalObjectFlags.flags) ∧
    ((∀ f ∈ EObjectFlags.flags, (∃ k, k < 32 ∧ f = 2 ^ k) ∧ f ≤ EObjectFlags.maxValue) ∧
      List.Pairwise (fun f g => f &&& g = 0) EObjectFlags.flags) ∧
    ((∀ f ∈ EPropertyFlags.flags, (∃ k, k < 64 ∧ f = 2 ^ k) ∧ f ≤ EPropertyFlags.maxValue) ∧
      List.Pairwise (fun f g => f &&& g = 0) EPropertyFlags.flags) ∧
    ((∀ f ∈ EFunctionFlags.flags, (∃ k, k < 32 ∧ f = 2 ^ k) ∧ f ≤ EFunctionFlags.maxValue) ∧
      List.Pairwise (fun f g => f &&& g = 0) EFunctionFlags.flags) ∧
    (EInternalObjectFlags.Unreachable = 2 ^ 28 ∧ EInternalObjectFlags.PendingKill = 2 ^ 29 ∧
      EInternalObjectFlags.Unreachable ≠ EInternalObjectFlags.PendingKill) ∧
    (EInternalObjectFlags.flags.length = 8 ∧ EInternalObjectFlags.AllFlags = 0x7F800000 ∧
      EInternalObjectFlags.AllFlags = EInternalObjectFlags.flags.foldl (fun m f => m ||| f) 0) := by
  refine ⟨⟨?_, ?_⟩, ⟨?_, ?_⟩, ⟨?_, ?_⟩, ⟨?_, ?_⟩, ?_, ?_⟩ <;> decide

/-- Instance of C17: `Unreachable`, a member of the internal flag table, is a power of two below
bit 31 and within `int32_t`. -/
theorem flag_tables_are_bitmask_sets_witness :
    (∃ k, k < 31 ∧ EInternalObjectFlags.Unreachable = 2 ^ k) ∧
      EInternalObjectFlags.Unreachable ≤ EInternalObjectFlags.maxValue :=
  flag_tables_are_bitmask_sets.1.1 EInternalObjectFlags.Unreachable (by decide)

end AndUEDumper
